import Mathlib

/-!
Shallow embedding of the DSO Pangolin viewer synchronization core
(src/io_wrapper/pangolin/pangolin_dso_viewer.cc).

State mutated under the two mutexes is modelled as a pure record
(ViewerState); each publish operation of the viewer becomes a pure
function on that record, taking the relevant global display flags as
explicit arguments.  Heap-allocated KeyFrameDisplay objects are
modelled as handle numbers drawn from an allocation counter, so that
handle identity (pointer identity in the C++) is observable.
-/

namespace Dso

/-- Time value as in struct timeval: seconds and microseconds. -/
structure Timeval where
  sec : Int
  usec : Int
deriving DecidableEq, Repr

/-- One RGB pixel of a MinimalImageB3 buffer (three byte channels). -/
abbrev Pixel := Nat × Nat × Nat

/-- GraphConnection of the viewer: two KeyFrameDisplay endpoint
references (null modelled as none, otherwise the handle number) and
the four constraint counts. -/
structure GraphConnection where
  fromH : Option Nat
  toH : Option Nat
  fwdAct : Int
  fwdMarg : Int
  bwdAct : Int
  bwdMarg : Int
deriving DecidableEq, Repr

deriving instance DecidableEq for Except

/-- Value-initialized GraphConnection, as produced for the new slots of
a std vector resize (null pointers, zero counts). -/
def GraphConnection.valueInit : GraphConnection :=
  { fromH := none, toH := none, fwdAct := 0, fwdMarg := 0, bwdAct := 0, bwdMarg := 0 }

/-- Input FrameHessian as far as the viewer reads it: the stable frame
identifier, the pose payload consumed by setFromKF (abstracted to one
integer), and the first channel of the dI intensity image. -/
structure FrameHessian where
  frameID : Nat
  pose : Int
  dI : List ℚ
deriving DecidableEq, Repr

/-- Input FrameShell as far as publishCamPose reads it: the pose
payload consumed by setFromF and the translation of camToWorld. -/
structure FrameShell where
  pose : Int
  trans : Int × Int × Int
deriving DecidableEq, Repr

/-- Whole mutex-guarded state of PangolinDSOViewer. -/
structure ViewerState where
  w : Nat
  h : Nat
  keyframes : List Nat
  keyframesByKFID : List (Nat × Nat)
  handlePose : List (Nat × Int)
  nextHandle : Nat
  connections : List GraphConnection
  allFramePoses : List (Int × Int × Int)
  currentCamPose : Int
  lastNTrackingMs : List ℚ
  last_track : Timeval
  lastNMappingMs : List ℚ
  last_map : Timeval
  internalVideoImg : List Pixel
  internalKFImg : List Pixel
  internalResImg : List Pixel
  videoImgChanged : Bool
  kfImgChanged : Bool
  resImgChanged : Bool
  needReset : Bool
deriving DecidableEq, Repr

/-- MinimalImageB3 setBlack: every pixel of the buffer becomes zero. -/
def setBlack (img : List Pixel) : List Pixel :=
  img.map (fun _ => ((0 : Nat), (0 : Nat), (0 : Nat)))

/-- State built by the constructor: empty model state, black images,
all three dirty flags set, no pending reset. -/
def initState (w h : Nat) : ViewerState :=
  { w := w
    h := h
    keyframes := []
    keyframesByKFID := []
    handlePose := []
    nextHandle := 0
    connections := []
    allFramePoses := []
    currentCamPose := 0
    lastNTrackingMs := []
    last_track := ⟨0, 0⟩
    lastNMappingMs := []
    last_map := ⟨0, 0⟩
    internalVideoImg := List.replicate (w * h) ((0 : Nat), (0 : Nat), (0 : Nat))
    internalKFImg := List.replicate (w * h) ((0 : Nat), (0 : Nat), (0 : Nat))
    internalResImg := List.replicate (w * h) ((0 : Nat), (0 : Nat), (0 : Nat))
    videoImgChanged := true
    kfImgChanged := true
    resImgChanged := true
    needReset := false }

/-- Association-list lookup keyed by Nat, modelling std map find / count. -/
def lookupA {β : Type} : List (Nat × β) → Nat → Option β
  | [], _ => none
  | (k', v) :: rest, k => if k' = k then some v else lookupA rest k

/-- Association-list overwrite, modelling a store through an existing
map entry (appends when the key is absent). -/
def assocSet {β : Type} : List (Nat × β) → Nat → β → List (Nat × β)
  | [], k, v => [(k, v)]
  | (k', v') :: rest, k, v =>
    if k' = k then (k, v) :: rest else (k', v') :: assocSet rest k v

/-- Body of the publishKeyframes loop for one incoming FrameHessian:
when the identifier is unknown a fresh KeyFrameDisplay is allocated and
inserted into both the keyframesByKFID map and the keyframes vector;
then setFromKF refreshes the handle found in the map. -/
def publishKF1 (s : ViewerState) (fh : FrameHessian) : ViewerState :=
  let s1 :=
    if (lookupA s.keyframesByKFID fh.frameID).isNone then
      { s with
        keyframesByKFID := s.keyframesByKFID ++ [(fh.frameID, s.nextHandle)]
        keyframes := s.keyframes ++ [s.nextHandle]
        nextHandle := s.nextHandle + 1 }
    else s
  match lookupA s1.keyframesByKFID fh.frameID with
  | some hd => { s1 with handlePose := assocSet s1.handlePose hd fh.pose }
  | none => s1

/-- PangolinDSOViewer publishKeyframes: no-op when display is disabled,
otherwise processes the batch under the model mutex. -/
def publishKeyframes (disableAllDisplay render3D : Bool)
    (frames : List FrameHessian) (s : ViewerState) : ViewerState :=
  if disableAllDisplay || !render3D then s
  else frames.foldl publishKF1 s

/-- PangolinDSOViewer reset: sets the pending-reset flag; callable from
any thread. -/
def reset (s : ViewerState) : ViewerState :=
  { s with needReset := true }

/-- PangolinDSOViewer reset_internal, executed by the render thread:
deletes all keyframe handles, clears the vector, the trajectory, the
id map and the connection list, blacks out the three image buffers,
sets their dirty flags, and clears the pending-reset flag. -/
def reset_internal (s : ViewerState) : ViewerState :=
  { s with
    keyframes := []
    allFramePoses := []
    keyframesByKFID := []
    connections := []
    handlePose := []
    internalVideoImg := setBlack s.internalVideoImg
    internalKFImg := setBlack s.internalKFImg
    internalResImg := setBlack s.internalResImg
    videoImgChanged := true
    kfImgChanged := true
    resImgChanged := true
    needReset := false }

/-- Reset step of the render loop: run reset_internal when the flag
is pending, as at the bottom of an iteration of run. -/
def processPendingReset (s : ViewerState) : ViewerState :=
  if s.needReset then reset_internal s else s

/-- Milliseconds elapsed between two timeval samples, as computed by
publishCamPose and pushDepthImage. -/
def tickDeltaMs (last now : Timeval) : ℚ :=
  ((now.sec - last.sec : Int) : ℚ) * 1000 + ((now.usec - last.usec : Int) : ℚ) / 1000

/-- Rolling-window tick of a latency tracker: append the elapsed delta
and drop the front sample when the window exceeds ten entries. -/
def recordTick (last now : Timeval) (window : List ℚ) : List ℚ :=
  let w := window ++ [tickDeltaMs last now]
  if 10 < w.length then w.tail else w

/-- Rate exposed by the render loop for a tracker window: the number of
samples times 1000 divided by their sum in milliseconds. -/
def currentRate (window : List ℚ) : ℚ :=
  (window.length : ℚ) * 1000 / window.sum

/-- PangolinDSOViewer publishCamPose: ticks the tracking latency
tracker, then records the current camera and appends the translation
to the full trajectory; no-op when display is disabled. -/
def publishCamPose (disableAllDisplay render3D : Bool)
    (frame : FrameShell) (now : Timeval) (s : ViewerState) : ViewerState :=
  if disableAllDisplay || !render3D then s
  else
    let s1 := { s with
      lastNTrackingMs := recordTick s.last_track now s.lastNTrackingMs
      last_track := now }
    if !render3D then s1
    else
      { s1 with
        currentCamPose := frame.pose
        allFramePoses := s1.allFramePoses ++ [frame.trans] }

/-- Saturated display intensity of pushLiveFrame: the dI value scaled
by 0.8, clamped to 255 and truncated to a byte. -/
def satPix (v : ℚ) : Nat :=
  if (255 : ℚ) < v * (4 / 5) then 255 else (v * (4 / 5)).floor.toNat

/-- PangolinDSOViewer pushLiveFrame: when neither display kill-switch
is set, greyscale-copies the frame intensity into the video buffer and
marks it dirty; otherwise returns without touching anything. -/
def pushLiveFrame (disableAllDisplay displayVideo : Bool)
    (image : FrameHessian) (s : ViewerState) : ViewerState :=
  if disableAllDisplay || !displayVideo then s
  else
    { s with
      internalVideoImg :=
        (List.range (s.w * s.h)).map (fun i =>
          let c := satPix (image.dI.getD i 0)
          (c, c, c))
      videoImgChanged := true }

/-- PangolinDSOViewer pushDepthImage: ticks the mapping latency
tracker and copies the prepared depth visualization into the keyframe
image buffer; no-op when depth display is disabled. -/
def pushDepthImage (disableAllDisplay displayDepth : Bool)
    (image : List Pixel) (now : Timeval) (s : ViewerState) : ViewerState :=
  if disableAllDisplay || !displayDepth then s
  else
    { s with
      lastNMappingMs := recordTick s.last_map now s.lastNMappingMs
      last_map := now
      internalKFImg := image.take (s.w * s.h)
      kfImgChanged := true }

/-- Failure modes of publishGraph: a glog CHECK macro firing (fatal
assertion) or the std map at call throwing for a missing inverse key. -/
inductive GraphFailure
  | assertFail
  | missingInverse
deriving DecidableEq, Repr

/-- Signed 32-bit reinterpretation of a packed half of a connectivity
key, as produced by the int casts in publishGraph. -/
def toInt32 (n : Nat) : Int :=
  if n % 4294967296 < 2147483648 then ((n % 4294967296 : Nat) : Int)
  else ((n % 4294967296 : Nat) : Int) - 4294967296

/-- Host ordinal decoded from a packed 64-bit connectivity key. -/
def decodeHost (k : Nat) : Int := toInt32 (k / 4294967296)

/-- Target ordinal decoded from a packed 64-bit connectivity key. -/
def decodeTarget (k : Nat) : Int := toInt32 (k % 4294967296)

/-- Key classification used below: entries the publishGraph loop
actually writes a record for are those whose decoded host and target
are nonnegative with host strictly below target. -/
def isCanonical (k : Nat) : Bool :=
  decide (0 ≤ decodeHost k) && decide (0 ≤ decodeTarget k)
    && decide (decodeHost k < decodeTarget k)

/-- Vector resize of the connection list: keep the first n elements,
pad with value-initialized records when growing. -/
def resizeConn (l : List GraphConnection) (n : Nat) : List GraphConnection :=
  l.take n ++ List.replicate (n - l.length) GraphConnection.valueInit

/-- Loop body of publishGraph over the connectivity map entries (the
map iterates in ascending key order, so the entry list is that order).
connectivity is the whole map, used for the inverse-key at lookup; reg
is keyframesByKFID; conns and rid are the connection vector and the
runningID write cursor. -/
def publishGraphLoop (connectivity : List (Nat × Int × Int)) (reg : List (Nat × Nat)) :
    List (Nat × Int × Int) → List GraphConnection → Nat →
      Except GraphFailure (List GraphConnection × Nat)
  | [], conns, rid => .ok (conns, rid)
  | (k, cnt) :: rest, conns, rid =>
    let host := decodeHost k
    let target := decodeTarget k
    if host < 0 ∨ target < 0 then .error .assertFail
    else if host = target then
      if cnt.1 ≠ 0 ∨ cnt.2 ≠ 0 then .error .assertFail
      else publishGraphLoop connectivity reg rest conns rid
    else if target < host then publishGraphLoop connectivity reg rest conns rid
    else
      match lookupA connectivity (target.toNat * 4294967296 + host.toNat) with
      | none => .error .missingInverse
      | some bwd =>
        publishGraphLoop connectivity reg rest
          (conns.set rid
            { fromH := lookupA reg host.toNat
              toH := lookupA reg target.toNat
              fwdAct := cnt.1
              fwdMarg := cnt.2
              bwdAct := bwd.1
              bwdMarg := bwd.2 })
          (rid + 1)

/-- PangolinDSOViewer publishGraph: no-op when display is disabled;
otherwise resizes the connection list to the entry count of the input
map and runs the rebuild loop under the model mutex. -/
def publishGraph (disableAllDisplay render3D : Bool)
    (connectivity : List (Nat × Int × Int)) (s : ViewerState) :
    Except GraphFailure ViewerState :=
  if disableAllDisplay || !render3D then .ok s
  else
    match publishGraphLoop connectivity s.keyframesByKFID connectivity
        (resizeConn s.connections connectivity.length) 0 with
    | .error e => .error e
    | .ok (conns, _) => .ok { s with connections := conns }

/-- Unordered endpoint pair named by a connectivity key, smaller
ordinal first. -/
def unorderedPairOf (k : Nat) : Int × Int :=
  (min (decodeHost k) (decodeTarget k), max (decodeHost k) (decodeTarget k))

/-- Number of distinct unordered pairs with host different from target
among the keys of a connectivity input, the quantity the specification
bounds the connection list by. -/
def unorderedPairCount (conn : List (Nat × Int × Int)) : Nat :=
  (((conn.map (fun e => unorderedPairOf e.1)).filter
      (fun p => decide (p.1 ≠ p.2))).dedup).length

/-- Observable events of one iteration of the render loop, in program
order: mutex operations, GL primitive draws, texture uploads, and
lock-free display or frame-swap calls. -/
inductive RenderEvent
  | lockModel
  | unlockModel
  | lockImage
  | unlockImage
  | glDraw
  | texUpload
  | display
deriving DecidableEq, Repr

/-- Per-iteration UI settings read by the render loop. -/
structure RenderSettings where
  render3D : Bool
  showKFCameras : Bool
  showCurrentCamera : Bool
  showAllConstraints : Bool
  showActiveConstraints : Bool
  showTrajectory : Bool
  showFullTrajectory : Bool
  displayVideo : Bool
  displayDepth : Bool
  displayResidual : Bool
deriving DecidableEq, Repr

/-- Draw events issued by drawConstraints, which runs with the model
mutex held: marginalized-only constraint lines, active constraint
lines, the keyframe trajectory strip and the full trajectory strip. -/
def drawConstraintsEvents (st : RenderSettings) (s : ViewerState) : List RenderEvent :=
  (if st.showAllConstraints then
    s.connections.foldr (fun c acc =>
      (if c.toH ≠ none ∧ c.fromH ≠ none ∧ c.bwdAct + c.fwdAct = 0 ∧ 0 < c.bwdMarg + c.fwdMarg
        then [RenderEvent.glDraw] else []) ++ acc) []
  else [])
  ++ (if st.showActiveConstraints then
    s.connections.foldr (fun c acc =>
      (if c.toH ≠ none ∧ c.fromH ≠ none ∧ 0 < c.bwdAct + c.fwdAct
        then [RenderEvent.glDraw] else []) ++ acc) []
  else [])
  ++ (if st.showTrajectory then List.replicate s.keyframes.length RenderEvent.glDraw else [])
  ++ (if st.showFullTrajectory then List.replicate s.allFramePoses.length RenderEvent.glDraw else [])

/-- Draw events of the keyframe loop of the 3D pass: optional camera
frustum plus point cloud per keyframe, issued with the model mutex
held. -/
def keyframeDrawEvents (st : RenderSettings) (s : ViewerState) : List RenderEvent :=
  s.keyframes.foldr (fun _ acc =>
    (if st.showKFCameras then [RenderEvent.glDraw] else [])
      ++ [RenderEvent.glDraw] ++ acc) []

/-- Events of the 3D pass of run: lock the model mutex, draw keyframes,
the current camera and the constraint overlays, unlock. -/
def model3DEvents (st : RenderSettings) (s : ViewerState) : List RenderEvent :=
  if st.render3D then
    [RenderEvent.lockModel]
    ++ keyframeDrawEvents st s
    ++ (if st.showCurrentCamera then [RenderEvent.glDraw] else [])
    ++ drawConstraintsEvents st s
    ++ [RenderEvent.unlockModel]
  else []

/-- Events of the texture-upload pass of run: lock the image mutex,
upload whichever of the three buffers is dirty, unlock. -/
def imageUploadEvents (s : ViewerState) : List RenderEvent :=
  [RenderEvent.lockImage]
  ++ (if s.videoImgChanged then [RenderEvent.texUpload] else [])
  ++ (if s.kfImgChanged then [RenderEvent.texUpload] else [])
  ++ (if s.resImgChanged then [RenderEvent.texUpload] else [])
  ++ [RenderEvent.unlockImage]

/-- Event trace of one iteration of run while running: the 3D pass
(camera frusta, point clouds and constraints drawn with the model
mutex held), the texture-upload pass (uploads of dirty buffers with
the image mutex held), the two fps-counter critical sections, the
three viewport display calls and the final frame swap. -/
def renderIterationEvents (st : RenderSettings) (s : ViewerState) : List RenderEvent :=
  model3DEvents st s
  ++ imageUploadEvents s
  ++ [RenderEvent.lockImage, RenderEvent.unlockImage]
  ++ [RenderEvent.lockModel, RenderEvent.unlockModel]
  ++ (if st.displayVideo then [RenderEvent.display] else [])
  ++ (if st.displayDepth then [RenderEvent.display] else [])
  ++ (if st.displayResidual then [RenderEvent.display] else [])
  ++ [RenderEvent.display]

/-- Lock-state transition demanding that every draw happens with the
model mutex held, every texture upload with the image mutex held, and
every display call with neither held; none marks a violation. -/
def stepOwnLock (st : Option (Bool × Bool)) (e : RenderEvent) : Option (Bool × Bool) :=
  match st with
  | none => none
  | some (m, i) =>
    match e with
    | .lockModel => some (true, i)
    | .unlockModel => some (false, i)
    | .lockImage => some (m, true)
    | .unlockImage => some (m, false)
    | .glDraw => if m then some (m, i) else none
    | .texUpload => if i then some (m, i) else none
    | .display => if !m && !i then some (m, i) else none

/-- Run the held-while-drawing checker over a trace from unlocked. -/
def checkOwnLock (evs : List RenderEvent) : Option (Bool × Bool) :=
  evs.foldl stepOwnLock (some (false, false))

/-- Lock-state transition for the specification's discipline: no draw,
upload or display call may happen while either mutex is held. -/
def stepLocksIdle (st : Option (Bool × Bool)) (e : RenderEvent) : Option (Bool × Bool) :=
  match st with
  | none => none
  | some (m, i) =>
    match e with
    | .lockModel => some (true, i)
    | .unlockModel => some (false, i)
    | .lockImage => some (m, true)
    | .unlockImage => some (m, false)
    | .glDraw => if !m && !i then some (m, i) else none
    | .texUpload => if !m && !i then some (m, i) else none
    | .display => if !m && !i then some (m, i) else none

/-- Run the no-output-under-lock checker over a trace from unlocked. -/
def checkLocksIdle (evs : List RenderEvent) : Option (Bool × Bool) :=
  evs.foldl stepLocksIdle (some (false, false))

/-- Registry consistency maintained by the viewer: map keys are
distinct, the keyframes vector holds exactly the values of the map in
insertion order, handles are distinct, and every live handle number is
below the allocation counter. -/
def RegistryInv (s : ViewerState) : Prop :=
  (s.keyframesByKFID.map Prod.fst).Nodup
    ∧ s.keyframes = s.keyframesByKFID.map Prod.snd
    ∧ s.keyframes.Nodup
    ∧ ∀ hd ∈ s.keyframes, hd < s.nextHandle

instance (s : ViewerState) : Decidable (RegistryInv s) := by
  unfold RegistryInv; infer_instance

/-- Sequence of publishKeyframes calls, each with its own display
flags and batch. -/
def runPublishes (calls : List (Bool × Bool × List FrameHessian)) (s : ViewerState) :
    ViewerState :=
  calls.foldl (fun st c => publishKeyframes c.1 c.2.1 c.2.2 st) s

theorem setBlack_eq_replicate (img : List Pixel) :
    setBlack img = List.replicate img.length ((0 : Nat), (0 : Nat), (0 : Nat)) := by
  induction img with
  | nil => rfl
  | cons p rest ih => simp_all [setBlack, List.replicate_succ]

theorem lookupA_eq_none_iff {β : Type} (l : List (Nat × β)) (k : Nat) :
    lookupA l k = none ↔ k ∉ l.map Prod.fst := by
  induction l with
  | nil => simp [lookupA]
  | cons p rest ih =>
    obtain ⟨k', v⟩ := p
    by_cases h : k' = k
    · subst h; simp [lookupA]
    · simp only [lookupA, h, if_false, List.map_cons, List.mem_cons, not_or, ih]
      constructor
      · intro hn; exact ⟨fun hk => h hk.symm, hn⟩
      · intro hn; exact hn.2

theorem lookupA_append_right {β : Type} (l : List (Nat × β)) (k : Nat) (v : β)
    (h : lookupA l k = none) : lookupA (l ++ [(k, v)]) k = some v := by
  induction l with
  | nil => simp [lookupA]
  | cons p rest ih =>
    obtain ⟨k', v'⟩ := p
    by_cases hk : k' = k
    · subst hk; simp [lookupA] at h
    · simp [lookupA, hk] at h ⊢; exact ih h

theorem publishKF1_inv (s : ViewerState) (fh : FrameHessian) (h : RegistryInv s) :
    RegistryInv (publishKF1 s fh) := by
  obtain ⟨h1, h2, h3, h4⟩ := h
  unfold publishKF1
  cases hl : lookupA s.keyframesByKFID fh.frameID with
  | some hd =>
    simp only [hl, Option.isNone_some, Bool.false_eq_true, if_false]
    exact ⟨h1, h2, h3, h4⟩
  | none =>
    have hmem : fh.frameID ∉ s.keyframesByKFID.map Prod.fst :=
      (lookupA_eq_none_iff _ _).mp hl
    simp only [hl, Option.isNone_none, if_true]
    rw [lookupA_append_right _ _ _ hl]
    refine ⟨?_, ?_, ?_, ?_⟩
    · simp [List.nodup_append, h1, hmem]
    · simp [h2]
    · have hfresh : s.nextHandle ∉ s.keyframes := fun hin =>
        absurd (h4 _ hin) (lt_irrefl _)
      simp [List.nodup_append, h3, hfresh]
    · intro hd hin
      simp at hin
      rcases hin with hin | rfl
      · exact Nat.lt_succ_of_lt (h4 _ hin)
      · exact Nat.lt_succ_self _

theorem publishKeyframes_inv (d r : Bool) (frames : List FrameHessian)
    (s : ViewerState) (h : RegistryInv s) :
    RegistryInv (publishKeyframes d r frames s) := by
  unfold publishKeyframes
  split
  · exact h
  · clear * - h
    induction frames generalizing s with
    | nil => exact h
    | cons fh rest ih => exact ih _ (publishKF1_inv _ _ h)

theorem initState_inv (w h : Nat) : RegistryInv (initState w h) := by
  refine ⟨?_, ?_, ?_, ?_⟩ <;> simp [initState]

theorem runPublishes_inv (calls : List (Bool × Bool × List FrameHessian))
    (s : ViewerState) (h : RegistryInv s) : RegistryInv (runPublishes calls s) := by
  unfold runPublishes
  induction calls generalizing s with
  | nil => exact h
  | cons c rest ih => exact ih _ (publishKeyframes_inv _ _ _ _ h)

/-- Claim C5: after the render thread executes the deferred reset, the
keyframe registry (vector and id map) is empty, the connection list is
empty, the trajectory log is empty, all three image buffers are fully
black, all three dirty flags are set, and the pending-reset flag is
cleared. -/
theorem reset_internal_clears_state (s : ViewerState) :
    (reset_internal s).keyframes = []
    ∧ (reset_internal s).keyframesByKFID = []
    ∧ (reset_internal s).connections = []
    ∧ (reset_internal s).allFramePoses = []
    ∧ (reset_internal s).internalVideoImg
        = List.replicate s.internalVideoImg.length ((0 : Nat), (0 : Nat), (0 : Nat))
    ∧ (reset_internal s).internalKFImg
        = List.replicate s.internalKFImg.length ((0 : Nat), (0 : Nat), (0 : Nat))
    ∧ (reset_internal s).internalResImg
        = List.replicate s.internalResImg.length ((0 : Nat), (0 : Nat), (0 : Nat))
    ∧ (reset_internal s).videoImgChanged = true
    ∧ (reset_internal s).kfImgChanged = true
    ∧ (reset_internal s).resImgChanged = true
    ∧ (reset_internal s).needReset = false := by
  simp [reset_internal, setBlack_eq_replicate]

/-- Claim C8: requesting a reset twice before the render loop consumes the
flag is observably the same as requesting it once, and the next loop
iteration performs exactly one reset and clears the flag. -/
theorem requestReset_idempotent (s : ViewerState) :
    reset (reset s) = reset s
    ∧ processPendingReset (reset s) = reset_internal (reset s)
    ∧ (processPendingReset (reset s)).needReset = false := by
  refine ⟨rfl, ?_, ?_⟩ <;> simp [reset, processPendingReset, reset_internal]

/-- Claim C9: pushing a live frame while the global display kill-switch is
set, or while live-video display is off, changes no pixel of any of
the three image buffers and no dirty flag. -/
theorem pushLiveFrame_disabled_noop (d dv : Bool) (image : FrameHessian)
    (s : ViewerState) (h : d = true ∨ dv = false) :
    (pushLiveFrame d dv image s).internalVideoImg = s.internalVideoImg
    ∧ (pushLiveFrame d dv image s).internalKFImg = s.internalKFImg
    ∧ (pushLiveFrame d dv image s).internalResImg = s.internalResImg
    ∧ (pushLiveFrame d dv image s).videoImgChanged = s.videoImgChanged
    ∧ (pushLiveFrame d dv image s).kfImgChanged = s.kfImgChanged
    ∧ (pushLiveFrame d dv image s).resImgChanged = s.resImgChanged := by
  rcases h with rfl | rfl <;> simp [pushLiveFrame]

/-- Witness for C9 at a concrete disabled configuration. -/
theorem pushLiveFrame_disabled_noop_witness :
    (pushLiveFrame true true ⟨0, 0, [300]⟩ (initState 1 1)).internalVideoImg
      = (initState 1 1).internalVideoImg :=
  (pushLiveFrame_disabled_noop true true ⟨0, 0, [300]⟩ (initState 1 1) (Or.inl rfl)).1

/-- Claim C4: across any sequence of publishKeyframes calls the registry
never holds two handles with the same frame identifier, and a batch
entry whose identifier is already registered only refreshes the
existing handle through setFromKF, inserting nothing into either
container. -/
theorem upsert_no_duplicate_identifier :
    (∀ (w h : Nat) (calls : List (Bool × Bool × List FrameHessian)),
      ((runPublishes calls (initState w h)).keyframesByKFID.map Prod.fst).Nodup
        ∧ (runPublishes calls (initState w h)).keyframes.Nodup)
    ∧ ∀ (s : ViewerState) (fh : FrameHessian) (hd : Nat),
        lookupA s.keyframesByKFID fh.frameID = some hd →
        publishKeyframes false true [fh] s
          = { s with handlePose := assocSet s.handlePose hd fh.pose } := by
  constructor
  · intro w h calls
    have hinv := runPublishes_inv calls _ (initState_inv w h)
    exact ⟨hinv.1, hinv.2.2.1⟩
  · intro s fh hd hl
    show publishKF1 s fh = _
    unfold publishKF1
    simp [hl]

/-- State holding one keyframe with identifier 5, for the C4 witness. -/
def kfState0 : ViewerState := publishKeyframes false true [⟨5, 1, []⟩] (initState 1 1)

/-- Witness for C4: re-publishing a registered identifier only updates
the handle pose, and a duplicate-id batch leaves the keys distinct. -/
theorem upsert_no_duplicate_identifier_witness :
    ((runPublishes [(false, true, [⟨5, 1, []⟩, ⟨5, 2, []⟩])]
        (initState 1 1)).keyframesByKFID.map Prod.fst).Nodup
    ∧ publishKeyframes false true [⟨5, 7, []⟩] kfState0
        = { kfState0 with handlePose := assocSet kfState0.handlePose 0 7 } :=
  ⟨(upsert_no_duplicate_identifier.1 1 1 [(false, true, [⟨5, 1, []⟩, ⟨5, 2, []⟩])]).1,
   upsert_no_duplicate_identifier.2 kfState0 ⟨5, 7, []⟩ 0 (by decide)⟩

/-- Claim C10: the keyframes vector and the identifier-keyed map always hold
exactly the same handles: publishKeyframes and reset_internal preserve
the consistency invariant, and under it the two containers have equal
size and the same handle membership. -/
theorem keyframes_vector_map_agree (s : ViewerState) (h : RegistryInv s)
    (d r : Bool) (frames : List FrameHessian) :
    (RegistryInv (publishKeyframes d r frames s)
      ∧ (publishKeyframes d r frames s).keyframes.length
          = (publishKeyframes d r frames s).keyframesByKFID.length
      ∧ ∀ hd, hd ∈ (publishKeyframes d r frames s).keyframes
          ↔ hd ∈ (publishKeyframes d r frames s).keyframesByKFID.map Prod.snd)
    ∧ (RegistryInv (reset_internal s)
      ∧ (reset_internal s).keyframes.length = (reset_internal s).keyframesByKFID.length
      ∧ ∀ hd, hd ∈ (reset_internal s).keyframes
          ↔ hd ∈ (reset_internal s).keyframesByKFID.map Prod.snd) := by
  have hp := publishKeyframes_inv d r frames s h
  refine ⟨⟨hp, ?_, ?_⟩, ⟨?_, ?_, ?_⟩⟩
  · rw [hp.2.1]; simp
  · intro hd; rw [hp.2.1]
  · refine ⟨?_, ?_, ?_, ?_⟩ <;> simp [reset_internal]
  · simp [reset_internal]
  · intro hd; simp [reset_internal]

/-- Witness for C10 at a concrete state and batch. -/
theorem keyframes_vector_map_agree_witness :
    (publishKeyframes false true [⟨3, 4, []⟩] (initState 2 2)).keyframes.length
      = (publishKeyframes false true [⟨3, 4, []⟩] (initState 2 2)).keyframesByKFID.length :=
  (keyframes_vector_map_agree (initState 2 2) (by decide) false true [⟨3, 4, []⟩]).1.2.1

/-- Claim C7: each latency tracker window is first-in-first-out with
capacity ten: a tick appends the elapsed delta, evicting exactly the
oldest sample when the window would exceed ten; publishCamPose ticks
the tracking window this way; the exposed rate is the sample count
times 1000 over the delta sum, so ten 100 ms deltas give rate 10, and
an eleventh tick evicts the oldest delta before the rate is
recomputed over the remaining ten. -/
theorem latency_tracker_window_rate :
    (∀ (last now : Timeval) (w : List ℚ), w.length ≤ 10 →
      (recordTick last now w).length ≤ 10)
    ∧ (∀ (last now : Timeval) (w : List ℚ), w.length < 10 →
      recordTick last now w = w ++ [tickDeltaMs last now])
    ∧ (∀ (last now : Timeval) (w : List ℚ), w.length = 10 →
      recordTick last now w = w.tail ++ [tickDeltaMs last now])
    ∧ (∀ (frame : FrameShell) (now : Timeval) (s : ViewerState),
      (publishCamPose false true frame now s).lastNTrackingMs
        = recordTick s.last_track now s.lastNTrackingMs)
    ∧ currentRate (List.replicate 10 (100 : ℚ)) = 10
    ∧ recordTick ⟨0, 0⟩ ⟨0, 200000⟩ (List.replicate 10 (100 : ℚ))
        = List.replicate 9 (100 : ℚ) ++ [200]
    ∧ currentRate (List.replicate 9 (100 : ℚ) ++ [200]) = 10000 / 1100 := by
  refine ⟨?_, ?_, ?_, ?_, ?_, ?_, ?_⟩
  · intro last now w hw
    simp only [recordTick]
    by_cases h10 : 10 < (w ++ [tickDeltaMs last now]).length
    · rw [if_pos h10]; simp; exact hw
    · rw [if_neg h10]; simp at h10 ⊢; omega
  · intro last now w hw
    simp only [recordTick]
    rw [if_neg (by simp; omega)]
  · intro last now w hw
    simp only [recordTick]
    rw [if_pos (by simp [hw])]
    cases w with
    | nil => simp at hw
    | cons a w' => simp
  · intro frame now s
    simp [publishCamPose]
  · norm_num [currentRate, List.sum_replicate, nsmul_eq_mul]
  · have hd : tickDeltaMs ⟨0, 0⟩ ⟨0, 200000⟩ = 200 := by norm_num [tickDeltaMs]
    simp only [recordTick, hd]
    rw [if_pos (by simp)]
    simp [List.replicate_succ]
  · norm_num [currentRate, List.sum_replicate, nsmul_eq_mul]

theorem foldl_stepOwnLock_draws (l : List RenderEvent)
    (h : ∀ e ∈ l, e = RenderEvent.glDraw) (i : Bool) :
    l.foldl stepOwnLock (some (true, i)) = some (true, i) := by
  induction l with
  | nil => rfl
  | cons e rest ih =>
    have he := h e (by simp)
    subst he
    show rest.foldl stepOwnLock (stepOwnLock (some (true, i)) RenderEvent.glDraw) = _
    simp only [stepOwnLock, if_true]
    exact ih fun e hm => h e (by simp [hm])

theorem foldr_two_guard_draws {α : Type} (b : Bool) (l : List α) :
    ∀ e ∈ l.foldr (fun _ acc =>
        (if b then [RenderEvent.glDraw] else []) ++ [RenderEvent.glDraw] ++ acc) [],
      e = RenderEvent.glDraw := by
  induction l with
  | nil => intro e he; simp at he
  | cons x rest ih =>
    intro e he
    simp only [List.foldr_cons] at he
    rcases List.mem_append.mp he with h1 | h2
    · rcases List.mem_append.mp h1 with h3 | h4
      · cases b <;> simp_all
      · simp_all
    · exact ih e h2

theorem foldr_guard_draws {α : Type} (p : α → Prop) [DecidablePred p] (l : List α) :
    ∀ e ∈ l.foldr (fun c acc => (if p c then [RenderEvent.glDraw] else []) ++ acc) [],
      e = RenderEvent.glDraw := by
  induction l with
  | nil => intro e he; simp at he
  | cons x rest ih =>
    intro e he
    simp only [List.foldr_cons] at he
    rcases List.mem_append.mp he with h1 | h2
    · by_cases hp : p x <;> simp_all
    · exact ih e h2

theorem keyframeDrawEvents_draws (st : RenderSettings) (s : ViewerState) :
    ∀ e ∈ keyframeDrawEvents st s, e = RenderEvent.glDraw :=
  foldr_two_guard_draws st.showKFCameras s.keyframes

theorem drawConstraintsEvents_draws (st : RenderSettings) (s : ViewerState) :
    ∀ e ∈ drawConstraintsEvents st s, e = RenderEvent.glDraw := by
  intro e he
  unfold drawConstraintsEvents at he
  rcases List.mem_append.mp he with h | h
  · rcases List.mem_append.mp h with h | h
    · rcases List.mem_append.mp h with h | h
      · by_cases hb : st.showAllConstraints
        · rw [if_pos hb] at h
          exact foldr_guard_draws _ _ e h
        · rw [if_neg hb] at h; simp at h
      · by_cases hb : st.showActiveConstraints
        · rw [if_pos hb] at h
          exact foldr_guard_draws _ _ e h
        · rw [if_neg hb] at h; simp at h
    · by_cases hb : st.showTrajectory
      · rw [if_pos hb] at h
        exact List.eq_of_mem_replicate h
      · rw [if_neg hb] at h; simp at h
  · by_cases hb : st.showFullTrajectory
    · rw [if_pos hb] at h
      exact List.eq_of_mem_replicate h
    · rw [if_neg hb] at h; simp at h

theorem foldl_stepOwnLock_model3D (st : RenderSettings) (s : ViewerState) (i : Bool) :
    (model3DEvents st s).foldl stepOwnLock (some (false, i)) = some (false, i) := by
  unfold model3DEvents
  by_cases hb : st.render3D
  · rw [if_pos hb]
    have h1 : List.foldl stepOwnLock (some (false, i)) [RenderEvent.lockModel]
        = some (true, i) := rfl
    have h2 : (keyframeDrawEvents st s).foldl stepOwnLock (some (true, i)) = some (true, i) :=
      foldl_stepOwnLock_draws _ (keyframeDrawEvents_draws st s) i
    have h3 : ((if st.showCurrentCamera then [RenderEvent.glDraw] else [])
          : List RenderEvent).foldl stepOwnLock (some (true, i)) = some (true, i) := by
      by_cases hc : st.showCurrentCamera <;> simp [hc, stepOwnLock]
    have h4 : (drawConstraintsEvents st s).foldl stepOwnLock (some (true, i))
        = some (true, i) :=
      foldl_stepOwnLock_draws _ (drawConstraintsEvents_draws st s) i
    simp only [List.foldl_append, h1, h2, h3, h4]
    rfl
  · rw [if_neg hb]; rfl

theorem foldl_stepOwnLock_imageUpload (s : ViewerState) (m : Bool) :
    (imageUploadEvents s).foldl stepOwnLock (some (m, false)) = some (m, false) := by
  unfold imageUploadEvents
  have hup : ∀ (b : Bool), ((if b then [RenderEvent.texUpload] else [])
      : List RenderEvent).foldl stepOwnLock (some (m, true)) = some (m, true) := by
    intro b; cases b <;> simp [stepOwnLock]
  have h0 : List.foldl stepOwnLock (some (m, false)) [RenderEvent.lockImage]
      = some (m, true) := rfl
  simp only [List.foldl_append, h0, hup]
  rfl

/-- Claim C2 amended: in every render-loop iteration the drawing and upload
calls happen inside the critical sections, not outside them: every GL
draw of the 3D pass runs with the model mutex held, every texture
upload runs with the image mutex held, only the viewport display and
frame-swap calls run with both mutexes free, and both mutexes are
free again at the end of the iteration. -/
theorem render_draws_under_held_locks (st : RenderSettings) (s : ViewerState) :
    checkOwnLock (renderIterationEvents st s) = some (false, false) := by
  unfold checkOwnLock renderIterationEvents
  have hdisp : ∀ (b : Bool), ((if b then [RenderEvent.display] else [])
      : List RenderEvent).foldl stepOwnLock (some (false, false)) = some (false, false) := by
    intro b; cases b <;> simp [stepOwnLock]
  have h1 := foldl_stepOwnLock_model3D st s false
  have h2 := foldl_stepOwnLock_imageUpload s false
  have h3 : List.foldl stepOwnLock (some (false, false))
      [RenderEvent.lockImage, RenderEvent.unlockImage] = some (false, false) := rfl
  have h4 : List.foldl stepOwnLock (some (false, false))
      [RenderEvent.lockModel, RenderEvent.unlockModel] = some (false, false) := rfl
  simp only [List.foldl_append, h1, h2, h3, h4, hdisp]
  rfl

/-- Settings of the counterexample iteration: 3D display on with the
current-camera overlay, everything else off. -/
def ceSettings : RenderSettings :=
  ⟨true, false, true, false, false, false, false, false, false, false⟩

/-- Counterexample to C2: on a freshly constructed viewer (all three
buffers dirty) with 3D display and the current-camera overlay on, the
iteration trace violates the claimed discipline that no drawing or
upload call ever runs while a lock is held: the current camera is
drawn under the model mutex and the dirty textures are uploaded under
the image mutex. -/
theorem render_locks_idle_counterexample :
    checkLocksIdle (renderIterationEvents ceSettings (initState 1 1)) = none := by
  decide

theorem publishGraphLoop_ok_spec (connectivity : List (Nat × Int × Int))
    (reg : List (Nat × Nat)) (entries : List (Nat × Int × Int)) :
    ∀ (conns : List GraphConnection) (rid : Nat)
      (conns' : List GraphConnection) (rid' : Nat),
      publishGraphLoop connectivity reg entries conns rid = Except.ok (conns', rid') →
      conns'.length = conns.length
      ∧ rid' = rid + (entries.filter (fun e => isCanonical e.1)).length
      ∧ ∀ i : Nat, i < rid ∨ rid' ≤ i → conns'[i]? = conns[i]? := by
  induction entries with
  | nil =>
    intro conns rid conns' rid' h
    simp only [publishGraphLoop, Except.ok.injEq, Prod.mk.injEq] at h
    obtain ⟨rfl, rfl⟩ := h
    simp
  | cons e rest ih =>
    obtain ⟨k, cnt⟩ := e
    intro conns rid conns' rid' h
    by_cases hneg : decodeHost k < 0 ∨ decodeTarget k < 0
    · rw [publishGraphLoop, if_pos hneg] at h
      cases h
    · rw [publishGraphLoop, if_neg hneg] at h
      rw [not_or, not_lt, not_lt] at hneg
      by_cases hself : decodeHost k = decodeTarget k
      · rw [if_pos hself] at h
        by_cases hcnt : cnt.1 ≠ 0 ∨ cnt.2 ≠ 0
        · rw [if_pos hcnt] at h; cases h
        · rw [if_neg hcnt] at h
          have hcan : isCanonical k = false := by
            simp [isCanonical, hself]
          obtain ⟨h1, h2, h3⟩ := ih conns rid conns' rid' h
          refine ⟨h1, ?_, h3⟩
          rw [h2, List.filter_cons]
          simp [hcan]
      · rw [if_neg hself] at h
        by_cases hgt : decodeTarget k < decodeHost k
        · rw [if_pos hgt] at h
          have hcan : isCanonical k = false := by
            simp only [isCanonical]
            simp [not_lt.mpr (le_of_lt hgt)]
          obtain ⟨h1, h2, h3⟩ := ih conns rid conns' rid' h
          refine ⟨h1, ?_, h3⟩
          rw [h2, List.filter_cons]
          simp [hcan]
        · rw [if_neg hgt] at h
          have hlt : decodeHost k < decodeTarget k :=
            lt_of_le_of_ne (not_lt.mp hgt) hself
          have hcan : isCanonical k = true := by
            simp [isCanonical, hneg.1, hneg.2, hlt]
          cases hinv : lookupA connectivity
              ((decodeTarget k).toNat * 4294967296 + (decodeHost k).toNat) with
          | none => rw [hinv] at h; cases h
          | some bwd =>
            rw [hinv] at h
            obtain ⟨h1, h2, h3⟩ := ih _ _ conns' rid' h
            refine ⟨by rw [h1, List.length_set], ?_, ?_⟩
            · rw [h2, List.filter_cons]
              simp only [hcan, if_true]
              simp; omega
            · intro i hi
              have hrid : rid + 1 ≤ rid' := by rw [h2]; omega
              have hne : rid ≠ i := by omega
              have := h3 i (by omega)
              rw [this, List.getElem?_set_ne hne]

/-- Claim C1 amended: a successful publishGraph resizes the connection list
to the full entry count of the input map (not to the number of
unordered pairs), writes exactly one record per entry whose decoded
ordinals satisfy 0 ≤ host < target (so self-pairs write nothing and
each unordered pair is written at most once, from its canonical
ordering), and leaves every slot at or beyond the written count with
the resized list's previous content, so value-initialized or leftover
records from an earlier publish remain in the list. -/
theorem publishGraph_rebuild_amended (conn : List (Nat × Int × Int))
    (s s' : ViewerState) (h : publishGraph false true conn s = Except.ok s') :
    s'.connections.length = conn.length
    ∧ publishGraphLoop conn s.keyframesByKFID conn (resizeConn s.connections conn.length) 0
        = Except.ok (s'.connections, (conn.filter (fun e => isCanonical e.1)).length)
    ∧ ∀ i : Nat, (conn.filter (fun e => isCanonical e.1)).length ≤ i →
        s'.connections[i]? = (resizeConn s.connections conn.length)[i]? := by
  rw [publishGraph] at h
  simp only [Bool.or_false, Bool.not_true, if_neg Bool.false_ne_true] at h
  cases hloop : publishGraphLoop conn s.keyframesByKFID conn
      (resizeConn s.connections conn.length) 0 with
  | error e => rw [hloop] at h; cases h
  | ok p =>
    obtain ⟨conns, rid⟩ := p
    rw [hloop] at h
    simp only [Except.ok.injEq] at h
    obtain ⟨hs, hr, hu⟩ := publishGraphLoop_ok_spec conn s.keyframesByKFID conn _ _ _ _ hloop
    have hconns : s'.connections = conns := by rw [← h]
    have hlen : (resizeConn s.connections conn.length).length = conn.length := by
      simp [resizeConn]; omega
    refine ⟨by rw [hconns, hs, hlen], ?_, ?_⟩
    · rw [hconns, hr]; simp
    · intro i hi
      rw [hconns]
      exact hu i (Or.inr (by omega))

/-- Input map of the claimed round trip, with both orderings of the
pair of identifiers 1 and 2. -/
def pairInput : List (Nat × Int × Int) :=
  [(1 * 4294967296 + 2, (3, 0)), (2 * 4294967296 + 1, (0, 1))]

/-- Result of publishing pairInput on a fresh viewer. -/
def pairResult : ViewerState :=
  { initState 1 1 with connections :=
      [⟨none, none, 3, 0, 0, 1⟩, GraphConnection.valueInit] }

/-- Witness for the amended C1 at the concrete round-trip input. -/
theorem publishGraph_rebuild_amended_witness :
    pairResult.connections.length = pairInput.length
    ∧ pairResult.connections[1]?
        = (resizeConn (initState 1 1).connections pairInput.length)[1]? :=
  ⟨(publishGraph_rebuild_amended pairInput (initState 1 1) pairResult (by decide)).1,
   (publishGraph_rebuild_amended pairInput (initState 1 1) pairResult (by decide)).2.2
     1 (by decide)⟩

/-- First connectivity publish of the counterexample run: pairs (1,2)
and (3,4), both orderings each, so two records are written into a
four-slot list. -/
def ceFirstInput : List (Nat × Int × Int) :=
  [(1 * 4294967296 + 2, (3, 0)), (2 * 4294967296 + 1, (0, 1)),
   (3 * 4294967296 + 4, (7, 0)), (4 * 4294967296 + 3, (0, 2))]

/-- Second connectivity publish of the counterexample run: the single
pair (5,6) in both orderings, a two-entry map with one unordered pair. -/
def ceSecondInput : List (Nat × Int × Int) :=
  [(5 * 4294967296 + 6, (1, 0)), (6 * 4294967296 + 5, (0, 0))]

/-- Viewer state after the first counterexample publish. -/
def ceState1 : ViewerState :=
  { initState 1 1 with connections :=
      [⟨none, none, 3, 0, 0, 1⟩, ⟨none, none, 7, 0, 0, 2⟩,
       GraphConnection.valueInit, GraphConnection.valueInit] }

/-- Viewer state after the second counterexample publish. -/
def ceState2 : ViewerState :=
  { initState 1 1 with connections :=
      [⟨none, none, 1, 0, 0, 0⟩, ⟨none, none, 7, 0, 0, 2⟩] }

/-- Counterexample to C1: publishing a map with one unordered pair
(both orderings present) after an earlier four-entry publish leaves a
connection list of size two, exceeding the claimed bound of one, and
slot one still holds the record written by the earlier publish, so a
stale entry persists. -/
theorem publishGraph_rebuild_counterexample :
    publishGraph false true ceFirstInput (initState 1 1) = Except.ok ceState1
    ∧ publishGraph false true ceSecondInput ceState1 = Except.ok ceState2
    ∧ unorderedPairCount ceSecondInput = 1
    ∧ ceState2.connections.length = 2
    ∧ ¬ ceState2.connections.length ≤ unorderedPairCount ceSecondInput
    ∧ ceState2.connections[1]? = some ⟨none, none, 7, 0, 0, 2⟩
    ∧ ceState1.connections[1]? = some ⟨none, none, 7, 0, 0, 2⟩
    ∧ (⟨none, none, 7, 0, 0, 2⟩ : GraphConnection) ≠ GraphConnection.valueInit := by
  decide

/-- Counterexample to C3: the round-trip input with both orderings of
the pair of identifiers 1 and 2 yields a connection list holding two
records, not exactly one. -/
theorem graph_roundtrip_counterexample :
    (publishGraph false true pairInput (initState 1 1)).map
        (fun s => s.connections.length) = Except.ok 2
    ∧ (2 : Nat) ≠ 1 := by
  decide

/-- Viewer state with identifiers 1 and 2 registered (handles 0 and
1), for the C3 round trip. -/
def regState : ViewerState :=
  publishKeyframes false true [⟨1, 10, []⟩, ⟨2, 20, []⟩] (initState 1 1)

/-- Claim C3 amended: publishing the connectivity map with entries (1,2) to
(3,0) and (2,1) to (0,1) writes exactly one ConnectionRecord, at slot
zero, with forward counts (3,0), backward counts (0,1), and endpoints
resolved to the registered handles when identifiers 1 and 2 are in the
registry and null otherwise; the list itself has size two, the second
slot being a value-initialized record left by the resize, not a
written one. -/
theorem graph_roundtrip_amended :
    publishGraph false true pairInput (initState 1 1)
      = Except.ok { initState 1 1 with connections :=
          [⟨none, none, 3, 0, 0, 1⟩, GraphConnection.valueInit] }
    ∧ publishGraph false true pairInput regState
      = Except.ok { regState with connections :=
          [⟨some 0, some 1, 3, 0, 0, 1⟩, GraphConnection.valueInit] }
    ∧ lookupA regState.keyframesByKFID 1 = some 0
    ∧ lookupA regState.keyframesByKFID 2 = some 1 := by
  decide

theorem selfViol_cons_iff (k : Nat) (cnt : Int × Int) (rest : List (Nat × Int × Int))
    (h : ¬(decodeHost k = decodeTarget k ∧ (cnt.1 ≠ 0 ∨ cnt.2 ≠ 0))) :
    (∃ e ∈ (k, cnt) :: rest,
        decodeHost e.1 = decodeTarget e.1 ∧ (e.2.1 ≠ 0 ∨ e.2.2 ≠ 0))
      ↔ ∃ e ∈ rest, decodeHost e.1 = decodeTarget e.1 ∧ (e.2.1 ≠ 0 ∨ e.2.2 ≠ 0) := by
  constructor
  · rintro ⟨e, he, hp⟩
    rcases List.mem_cons.mp he with rfl | he'
    · exact absurd hp h
    · exact ⟨e, he', hp⟩
  · rintro ⟨e, he, hp⟩
    exact ⟨e, List.mem_cons_of_mem _ he, hp⟩

theorem publishGraphLoop_assertFail_iff (connectivity : List (Nat × Int × Int))
    (reg : List (Nat × Nat)) (entries : List (Nat × Int × Int)) :
    ∀ (conns : List GraphConnection) (rid : Nat),
      (∀ e ∈ entries, 0 ≤ decodeHost e.1 ∧ 0 ≤ decodeTarget e.1) →
      (∀ e ∈ entries, decodeHost e.1 < decodeTarget e.1 →
        (lookupA connectivity
          ((decodeTarget e.1).toNat * 4294967296 + (decodeHost e.1).toNat)).isSome) →
      (publishGraphLoop connectivity reg entries conns rid
          = Except.error GraphFailure.assertFail
        ↔ ∃ e ∈ entries,
            decodeHost e.1 = decodeTarget e.1 ∧ (e.2.1 ≠ 0 ∨ e.2.2 ≠ 0)) := by
  induction entries with
  | nil =>
    intro conns rid _ _
    simp [publishGraphLoop]
  | cons e rest ih =>
    obtain ⟨k, cnt⟩ := e
    intro conns rid hnn hinv
    have hrestnn : ∀ e ∈ rest, 0 ≤ decodeHost e.1 ∧ 0 ≤ decodeTarget e.1 :=
      fun e he => hnn e (by simp [he])
    have hrestinv : ∀ e ∈ rest, decodeHost e.1 < decodeTarget e.1 →
        (lookupA connectivity
          ((decodeTarget e.1).toNat * 4294967296 + (decodeHost e.1).toNat)).isSome :=
      fun e he => hinv e (by simp [he])
    have hk := hnn (k, cnt) (by simp)
    have hneg : ¬(decodeHost k < 0 ∨ decodeTarget k < 0) := by
      rw [not_or]
      exact ⟨not_lt.mpr hk.1, not_lt.mpr hk.2⟩
    rw [publishGraphLoop, if_neg hneg]
    by_cases hself : decodeHost k = decodeTarget k
    · rw [if_pos hself]
      by_cases hcnt : cnt.1 ≠ 0 ∨ cnt.2 ≠ 0
      · rw [if_pos hcnt]
        constructor
        · intro _
          exact ⟨(k, cnt), List.mem_cons_self _ _, hself, hcnt⟩
        · intro _
          rfl
      · rw [if_neg hcnt]
        rw [ih conns rid hrestnn hrestinv]
        exact (selfViol_cons_iff k cnt rest fun hp => hcnt hp.2).symm
    · rw [if_neg hself]
      by_cases hgt : decodeTarget k < decodeHost k
      · rw [if_pos hgt]
        rw [ih conns rid hrestnn hrestinv]
        exact (selfViol_cons_iff k cnt rest fun hp => hself hp.1).symm
      · rw [if_neg hgt]
        have hlt : decodeHost k < decodeTarget k :=
          lt_of_le_of_ne (not_lt.mp hgt) hself
        have hsome := hinv (k, cnt) (List.mem_cons_self _ _) hlt
        obtain ⟨bwd, hlk⟩ := Option.isSome_iff_exists.mp hsome
        simp only [hlk]
        rw [ih _ _ hrestnn hrestinv]
        exact (selfViol_cons_iff k cnt rest fun hp => hself hp.1).symm

/-- Claim C6 amended: when every packed half of every key decodes to a
nonnegative ordinal (below two to the 31st) and the inverse key of
every canonically ordered pair is present, publishGraph (with display
enabled) dies on a fatal assertion exactly when some self-pair entry
carries a nonzero active or marginalized count; an all-zero self-pair
passes the checks and contributes nothing, its loop step being the
identity.  Outside those hypotheses the equivalence claimed by the
specification fails: a key whose decoded host ordinal is negative also
fires a fatal CHECK with no self-pair involved. -/
theorem publishGraph_assert_iff_amended (conn : List (Nat × Int × Int)) (s : ViewerState)
    (hnn : ∀ e ∈ conn, 0 ≤ decodeHost e.1 ∧ 0 ≤ decodeTarget e.1)
    (hinv : ∀ e ∈ conn, decodeHost e.1 < decodeTarget e.1 →
      (lookupA conn
        ((decodeTarget e.1).toNat * 4294967296 + (decodeHost e.1).toNat)).isSome) :
    (publishGraph false true conn s = Except.error GraphFailure.assertFail
      ↔ ∃ e ∈ conn, decodeHost e.1 = decodeTarget e.1 ∧ (e.2.1 ≠ 0 ∨ e.2.2 ≠ 0))
    ∧ ∀ (k : Nat) (cnt : Int × Int) (rest : List (Nat × Int × Int))
        (conns : List GraphConnection) (rid : Nat),
        0 ≤ decodeHost k → decodeHost k = decodeTarget k → cnt = (0, 0) →
        publishGraphLoop conn s.keyframesByKFID ((k, cnt) :: rest) conns rid
          = publishGraphLoop conn s.keyframesByKFID rest conns rid := by
  constructor
  · rw [publishGraph]
    simp only [Bool.or_false, Bool.not_true, if_neg Bool.false_ne_true]
    rw [← publishGraphLoop_assertFail_iff conn s.keyframesByKFID conn
        (resizeConn s.connections conn.length) 0 hnn hinv]
    cases hl : publishGraphLoop conn s.keyframesByKFID conn
        (resizeConn s.connections conn.length) 0 with
    | error e => cases e <;> simp
    | ok p => simp
  · intro k cnt rest conns rid hge hself hz
    have hneg : ¬(decodeHost k < 0 ∨ decodeTarget k < 0) := by
      rw [not_or]
      exact ⟨not_lt.mpr hge, not_lt.mpr (hself ▸ hge)⟩
    rw [publishGraphLoop, if_neg hneg, if_pos hself, if_neg (by simp [hz])]

/-- Witness for the amended C6: a self-pair of identifier 1 with a
nonzero active count makes publishGraph die on the CHECK assertion. -/
theorem publishGraph_assert_iff_amended_witness :
    publishGraph false true [(4294967297, ((5 : Int), (0 : Int)))] (initState 1 1)
      = Except.error GraphFailure.assertFail :=
  (publishGraph_assert_iff_amended [(4294967297, ((5 : Int), (0 : Int)))]
      (initState 1 1) (by decide) (by decide)).1.mpr (by decide)

/-- Counterexample to C6: the single-entry map whose key is two to the
63rd decodes to host ordinal minus two to the 31st, so the CHECK_GE
assertion fires even though the input contains no self-pair with a
nonzero count (its only entry has host different from target and both
counts zero). -/
theorem publishGraph_assert_counterexample :
    publishGraph false true [(9223372036854775808, ((0 : Int), (0 : Int)))] (initState 1 1)
      = Except.error GraphFailure.assertFail
    ∧ ([((9223372036854775808 : Nat), ((0 : Int), (0 : Int)))].filter
        (fun e => decide (decodeHost e.1 = decodeTarget e.1)
          && (decide (e.2.1 ≠ 0) || decide (e.2.2 ≠ 0)))).length = 0
    ∧ decodeHost 9223372036854775808 < 0 := by
  decide

/-- Witness for C7 at concrete windows and tick times. -/
theorem latency_tracker_window_rate_witness :
    (recordTick ⟨0, 0⟩ ⟨0, 100000⟩ []).length ≤ 10
    ∧ recordTick ⟨0, 0⟩ ⟨0, 100000⟩ [] = [] ++ [tickDeltaMs ⟨0, 0⟩ ⟨0, 100000⟩]
    ∧ recordTick ⟨0, 3⟩ ⟨0, 5⟩ (List.replicate 10 (7 : ℚ))
        = (List.replicate 10 (7 : ℚ)).tail ++ [tickDeltaMs ⟨0, 3⟩ ⟨0, 5⟩] :=
  ⟨latency_tracker_window_rate.1 ⟨0, 0⟩ ⟨0, 100000⟩ [] (by simp),
   latency_tracker_window_rate.2.1 ⟨0, 0⟩ ⟨0, 100000⟩ [] (by simp),
   latency_tracker_window_rate.2.2.1 ⟨0, 3⟩ ⟨0, 5⟩ (List.replicate 10 (7 : ℚ)) (by simp)⟩

end Dso
